import Mathlib

/-!
Verification of `src/main.py` (Meshcapade avatar upload / measurement
download CLI). The Python functions are shallowly embedded as Lean
definitions: JSON scalars become an inductive type, Python floats are
idealised as rationals with `round(x, 2)` modelled as round-half-to-even
on ℚ, and the side-effecting workflow `upload_avatar` is modelled as the
trace of externally visible events it produces.
-/

namespace Meshcapade

/-- JSON scalar values as they occur in `avatar.json` metadata and in the
remote measurement map. -/
inductive JValue where
  | num (q : ℚ)
  | bool (b : Bool)
  | str (s : String)
  | null
deriving DecidableEq, Repr

/-- Round-half-to-even on rationals: the tie-breaking rule of Python's
built-in `round`. -/
def pyRoundInt (q : ℚ) : ℤ :=
  if q - ⌊q⌋ < 1/2 then ⌊q⌋
  else if 1/2 < q - ⌊q⌋ then ⌊q⌋ + 1
  else if ⌊q⌋ % 2 = 0 then ⌊q⌋ else ⌊q⌋ + 1

/-- Python's `round(x, 2)`: round to two decimal places, ties to even. -/
def round2 (q : ℚ) : ℚ := (pyRoundInt (q * 100) : ℚ) / 100

/-- `isinstance(value, (int, float))` (src/main.py:181). In Python `bool`
is a subclass of `int`, so boolean values pass this test as well. -/
def isNumeric : JValue → Bool
  | .num _ => true
  | .bool _ => true
  | _ => false

/-- The number Python arithmetic sees for a value passing `isNumeric`:
`True` counts as 1 and `False` as 0. -/
def numValue : JValue → ℚ
  | .num q => q
  | .bool b => if b then 1 else 0
  | _ => 0

/-- A value of the processed measurement map: either a two-unit JSON object
(a list of unit-name/number fields in insertion order) or a raw value kept
as-is. -/
inductive OutValue where
  | obj (fields : List (String × ℚ))
  | raw (v : JValue)
deriving DecidableEq, Repr

/-- Python's `str.lower()`, lowering each character (the inputs the tool
meets are ASCII). -/
def pyLower (s : String) : String := ⟨s.data.map Char.toLower⟩

/-- The per-entry conversion of `download_measurements`
(src/main.py:180-200): numeric entries named "weight" (case-insensitively)
become `{kg, lbs}`, other numeric entries become `{cm, in}`, and
non-numeric entries are kept unchanged. -/
def convertMeasurement (measurement_name : String) (value : JValue) : OutValue :=
  if isNumeric value then
    if pyLower measurement_name = "weight" then
      OutValue.obj [("kg", round2 (numValue value)),
                    ("lbs", round2 (numValue value * 2.20462))]
    else
      OutValue.obj [("cm", round2 (numValue value)),
                    ("in", round2 (numValue value / 2.54))]
  else
    OutValue.raw value

/-- The fields of the remote avatar response that `download_measurements`
reads: `data.attributes.state` (absent levels yield `none`, which compares
unequal to "READY") and
`data.attributes.metadata.bodyShape.mesh_measurements` (absent levels
yield the empty map, which is falsy). -/
structure AvatarStatusResponse where
  state : Option String
  mesh_measurements : List (String × JValue)
deriving DecidableEq, Repr

/-- `download_measurements` (src/main.py:153-217) as a function from the
observed remote response to (return value, content written to
`measurements.json` — `none` when no file is written). -/
def download_measurements (resp : AvatarStatusResponse) :
    Bool × Option (List (String × OutValue)) :=
  if resp.state = some "READY" then
    if resp.mesh_measurements.isEmpty then
      (false, none)
    else
      (true, some (resp.mesh_measurements.map fun p => (p.1, convertMeasurement p.1 p.2)))
  else
    (false, none)

/-- `valid_genders` (src/main.py:71). -/
def valid_genders : List String := ["female", "male", "neutral"]

/-- The gender validation step of `load_subject_data` (src/main.py:70-78):
`avatar_data.get("gender", "neutral").lower()`, replaced by `"neutral"`
with a printed warning when the lowered value is not a valid gender.
Returns the normalised gender and whether the warning was printed. -/
def normalizeGender (g : Option String) : String × Bool :=
  let gender := pyLower (g.getD "neutral")
  if gender ∈ valid_genders then (gender, false) else ("neutral", true)

/-- Lexicographic comparison of code-point lists: how Python compares
strings, hence the order `sorted` uses on subject names. -/
def charListLe : List Char → List Char → Bool
  | [], _ => true
  | _ :: _, [] => false
  | a :: as, b :: bs =>
    if a < b then true
    else if b < a then false
    else charListLe as bs

/-- Python's `<=` on strings. -/
def strLe (a b : String) : Bool := charListLe a.data b.data

/-- `strLe` as a relation, for the sorting lemmas. -/
def strLeRel (a b : String) : Prop := strLe a b = true

instance : DecidableRel strLeRel := fun a b =>
  inferInstanceAs (Decidable (strLe a b = true))

/-- One entry of the data-root directory as the scanner observes it:
its name, whether it is a directory, and whether it contains a file named
`avatar.json`. -/
structure DirEntry where
  name : String
  is_dir : Bool
  has_avatar_json : Bool
deriving DecidableEq, Repr

/-- `item.name.startswith(".")` (src/main.py:54). -/
def startsWithDot (s : String) : Bool :=
  match s.data with
  | [] => false
  | c :: _ => c = '.'

/-- `get_available_subjects` (src/main.py:48-59) as a function of the
directory listing: keep directories whose name has no leading dot and
which contain `avatar.json`, and return their names sorted. -/
def get_available_subjects (entries : List DirEntry) : List String :=
  List.insertionSort strLeRel
    ((entries.filter fun e => e.is_dir && !startsWithDot e.name && e.has_avatar_json).map
      DirEntry.name)

/-- Dictionary lookup `d.get(k)` for a JSON object modelled as an
insertion-ordered association list. -/
def lookupKey (d : List (String × JValue)) (k : String) : Option JValue :=
  (d.find? fun p => p.1 = k).map Prod.snd

/-- Dictionary assignment `d[k] = v`: replaces the value in place when the
key is present (keeping its position, as Python dicts do), appends the new
key otherwise. -/
def setKey (d : List (String × JValue)) (k : String) (v : JValue) : List (String × JValue) :=
  match d with
  | [] => [(k, v)]
  | (k', v') :: rest => if k' = k then (k, v) :: rest else (k', v') :: setKey rest k v

/-- The metadata half of `load_subject_data` (src/main.py:62-78) as a
function of the parsed `avatar.json` object: the gender field is
normalised and written back into the object. A present non-string gender
would make `.lower()` raise, modelled as `none`. -/
def load_avatar_data (raw : List (String × JValue)) : Option (List (String × JValue)) :=
  match lookupKey raw "gender" with
  | some (.str s) => some (setKey raw "gender" (.str (normalizeGender (some s)).1))
  | none => some (setKey raw "gender" (.str (normalizeGender none).1))
  | some _ => none

/-- The image half of `load_subject_data` (src/main.py:80-88): the globs
for `*.jpg`, `*.jpeg`, `*.png` are concatenated in that order and the
result is truncated to the first 4 files. -/
def collectImages (jpg_files jpeg_files png_files : List String) : List String :=
  (jpg_files ++ jpeg_files ++ png_files).take 4

/-- The JSON body built by `start_fitting` (src/main.py:130-150), as an
insertion-ordered association list: `avatarname`, `gender`, a fixed
`imageMode`, then `height` and `weight` exactly when present in the
metadata. (`avatar_data["gender"]` is a plain subscript in the source; the
loader has always set it in the workflow.) -/
def fitPayload (subject_name : String) (avatar_data : List (String × JValue)) :
    List (String × JValue) :=
  [("avatarname", JValue.str subject_name),
   ("gender", (lookupKey avatar_data "gender").getD .null),
   ("imageMode", JValue.str "AFI")]
    ++ (match lookupKey avatar_data "height" with
        | some h => [("height", h)]
        | none => [])
    ++ (match lookupKey avatar_data "weight" with
        | some w => [("weight", w)]
        | none => [])

/-- The externally visible actions of the upload workflow, in order. -/
inductive Event where
  | createAvatar
  | saveAvatarJson (content : List (String × JValue))
  | presignRequest (image : String)
  | putImage (image : String)
  | fitRequest (payload : List (String × JValue))
deriving DecidableEq, Repr

/-- `upload_images` (src/main.py:102-127) as the trace it produces: for
each image, in list order, one presigned-URL request followed by one PUT
of the image bytes. -/
def upload_images (image_files : List String) : List Event :=
  image_files.flatMap fun f => [Event.presignRequest f, Event.putImage f]

/-- `upload_avatar` (src/main.py:220-245) as the trace of events it
performs given the freshly created avatar id: create the avatar, persist
the id into `avatar.json`, upload each image, start fitting. -/
def upload_avatar (selected_subject : String) (avatar_data : List (String × JValue))
    (image_files : List String) (new_avatar_id : String) : List Event :=
  [Event.createAvatar,
   Event.saveAvatarJson (setKey avatar_data "avatar_id" (JValue.str new_avatar_id))]
    ++ upload_images image_files
    ++ [Event.fitRequest
          (fitPayload selected_subject (setKey avatar_data "avatar_id" (JValue.str new_avatar_id)))]

/-- Events of the image-upload phase: presigned-URL requests and image
transfers. -/
def isImageUploadEvent : Event → Bool
  | .presignRequest _ => true
  | .putImage _ => true
  | _ => false

theorem pyRoundInt_eq_down (q : ℚ) (n : ℤ) (h1 : (n : ℚ) ≤ q) (h2 : q < (n : ℚ) + 1/2) :
    pyRoundInt q = n := by
  have hf : ⌊q⌋ = n := by
    rw [Int.floor_eq_iff]
    refine ⟨h1, ?_⟩
    linarith
  unfold pyRoundInt
  rw [hf, if_pos (by linarith)]

theorem pyRoundInt_eq_up (q : ℚ) (n : ℤ) (h1 : (n : ℚ) + 1/2 < q) (h2 : q < (n : ℚ) + 1) :
    pyRoundInt q = n + 1 := by
  have hf : ⌊q⌋ = n := by
    rw [Int.floor_eq_iff]
    refine ⟨by linarith, ?_⟩
    linarith
  unfold pyRoundInt
  rw [hf, if_neg (by linarith), if_pos (by linarith)]

theorem round2_eq_down (q : ℚ) (n : ℤ) (h1 : (n : ℚ) ≤ q * 100) (h2 : q * 100 < (n : ℚ) + 1/2) :
    round2 q = (n : ℚ) / 100 := by
  unfold round2
  rw [pyRoundInt_eq_down (q * 100) n h1 h2]

theorem round2_eq_up (q : ℚ) (n : ℤ) (h1 : (n : ℚ) + 1/2 < q * 100) (h2 : q * 100 < (n : ℚ) + 1) :
    round2 q = ((n : ℚ) + 1) / 100 := by
  unfold round2
  rw [pyRoundInt_eq_up (q * 100) n h1 h2]
  push_cast
  ring

theorem convertMeasurement_num_length (name : String) (v : ℚ) (h : pyLower name ≠ "weight") :
    convertMeasurement name (.num v) = .obj [("cm", round2 v), ("in", round2 (v / 2.54))] := by
  simp [convertMeasurement, isNumeric, numValue, h]

theorem convertMeasurement_num_weight (name : String) (v : ℚ) (h : pyLower name = "weight") :
    convertMeasurement name (.num v) = .obj [("kg", round2 v), ("lbs", round2 (v * 2.20462))] := by
  simp [convertMeasurement, isNumeric, numValue, h]

theorem charListLe_total : ∀ as bs, charListLe as bs = true ∨ charListLe bs as = true := by
  intro as
  induction as with
  | nil => intro bs; left; rfl
  | cons a as ih =>
    intro bs
    cases bs with
    | nil => right; rfl
    | cons b bs =>
      rcases lt_trichotomy a b with h | h | h
      · left; simp [charListLe, h]
      · subst h
        rcases ih bs with h' | h'
        · left; simpa [charListLe] using h'
        · right; simpa [charListLe] using h'
      · right; simp [charListLe, h]

theorem charListLe_trans :
    ∀ as bs cs, charListLe as bs = true → charListLe bs cs = true → charListLe as cs = true := by
  intro as
  induction as with
  | nil => intro bs cs _ _; rfl
  | cons a as ih =>
    intro bs cs h1 h2
    cases bs with
    | nil => simp [charListLe] at h1
    | cons b bs =>
      cases cs with
      | nil => simp [charListLe] at h2
      | cons c cs =>
        by_cases hab : a < b
        · by_cases hbc : b < c
          · simp [charListLe, lt_trans hab hbc]
          · by_cases hcb : c < b
            · simp [charListLe, hbc, hcb] at h2
            · have hbc' : b = c := le_antisymm (not_lt.mp hcb) (not_lt.mp hbc)
              subst hbc'
              simp [charListLe, hab]
        · by_cases hba : b < a
          · simp [charListLe, hab, hba] at h1
          · have hab' : a = b := le_antisymm (not_lt.mp hba) (not_lt.mp hab)
            subst hab'
            simp only [charListLe, lt_irrefl, if_neg, ite_self, if_false] at h1
            by_cases hac : a < c
            · simp [charListLe, hac]
            · by_cases hca : c < a
              · simp [charListLe, hac, hca] at h2
              · have hac' : a = c := le_antisymm (not_lt.mp hca) (not_lt.mp hac)
                subst hac'
                simp only [charListLe, lt_irrefl, if_neg, ite_self, if_false] at h2 ⊢
                exact ih bs cs h1 h2

instance : IsTotal String strLeRel :=
  ⟨fun a b => charListLe_total a.data b.data⟩

instance : IsTrans String strLeRel :=
  ⟨fun a b c => charListLe_trans a.data b.data c.data⟩

theorem lookupKey_setKey_same (d : List (String × JValue)) (k : String) (v : JValue) :
    lookupKey (setKey d k v) k = some v := by
  induction d with
  | nil => simp [setKey, lookupKey, List.find?]
  | cons p rest ih =>
    by_cases h : p.1 = k
    · simp [setKey, h, lookupKey, List.find?]
    · simpa [setKey, h, lookupKey, List.find?] using ih

theorem lookupKey_cons_same (pk : String) (pv : JValue) (rest : List (String × JValue))
    (k : String) (h : pk = k) : lookupKey ((pk, pv) :: rest) k = some pv := by
  simp [lookupKey, List.find?, h]

theorem lookupKey_cons_ne (pk : String) (pv : JValue) (rest : List (String × JValue))
    (k : String) (h : pk ≠ k) : lookupKey ((pk, pv) :: rest) k = lookupKey rest k := by
  simp [lookupKey, List.find?, h]

theorem lookupKey_setKey_other (d : List (String × JValue)) (k : String) (v : JValue)
    (k' : String) (h : k' ≠ k) :
    lookupKey (setKey d k v) k' = lookupKey d k' := by
  induction d with
  | nil =>
    simp only [setKey]
    rw [lookupKey_cons_ne _ _ _ _ (Ne.symm h)]
  | cons p rest ih =>
    obtain ⟨pk, pv⟩ := p
    simp only [setKey]
    by_cases hp : pk = k
    · rw [if_pos hp, lookupKey_cons_ne _ _ _ _ (Ne.symm h),
        lookupKey_cons_ne _ _ _ _ (by rw [hp]; exact Ne.symm h)]
    · rw [if_neg hp]
      by_cases hp' : pk = k'
      · rw [lookupKey_cons_same _ _ _ _ hp', lookupKey_cons_same _ _ _ _ hp']
      · rw [lookupKey_cons_ne _ _ _ _ hp', lookupKey_cons_ne _ _ _ _ hp']
        exact ih

theorem presign_mem_upload_images (l : List String) (f : String) :
    Event.presignRequest f ∈ upload_images l ↔ f ∈ l := by
  simp [upload_images, List.mem_flatMap, eq_comm]

theorem putImage_mem_upload_images (l : List String) (f : String) :
    Event.putImage f ∈ upload_images l ↔ f ∈ l := by
  simp [upload_images, List.mem_flatMap, eq_comm]

theorem normalizeGender_fst_mem (g : Option String) :
    (normalizeGender g).1 ∈ valid_genders := by
  unfold normalizeGender
  dsimp only
  split_ifs with h
  · exact h
  · simp [valid_genders]

/-- C1 (counterexample): the round-trip equation between the output fields
fails for the numeric input 2.5528: the emitted record is
`{cm: 2.55, in: 1.01}`, but `round(2.55 / 2.54, 2) = 1.00 ≠ 1.01`, because
the code computes both fields from the raw value, not one from the
other. -/
theorem C1_roundtrip_counterexample :
    convertMeasurement "chest" (.num 2.5528) = .obj [("cm", 2.55), ("in", 1.01)] ∧
    round2 ((2.55 : ℚ) / 2.54) = 1.00 ∧ ((1.01 : ℚ) ≠ 1.00) := by
  refine ⟨?_, ?_, by norm_num⟩
  · rw [convertMeasurement_num_length "chest" 2.5528 (by decide)]
    rw [round2_eq_down (2.5528 : ℚ) 255 (by norm_num) (by norm_num)]
    rw [round2_eq_up ((2.5528 : ℚ) / 2.54) 100 (by norm_num) (by norm_num)]
    norm_num
  · rw [round2_eq_down ((2.55 : ℚ) / 2.54) 100 (by norm_num) (by norm_num)]
    norm_num

/-- C1 (amended): the output fields are computed from the raw numeric
value `v`: `cm = round(v, 2)` and `in = round(v / 2.54, 2)` (resp.
`kg = round(v, 2)`, `lbs = round(v * 2.20462, 2)` for the "weight" entry).
When the input is unchanged by rounding to 2 decimals, the claimed
equations between the fields themselves hold: `in = round(cm / 2.54, 2)`
and `lbs = round(kg * 2.20462, 2)`. -/
theorem C1_roundtrip_amended (measurement_name : String) (v : ℚ) (h : round2 v = v) :
    (pyLower measurement_name ≠ "weight" →
      convertMeasurement measurement_name (.num v) =
        .obj [("cm", round2 v), ("in", round2 (round2 v / 2.54))]) ∧
    (pyLower measurement_name = "weight" →
      convertMeasurement measurement_name (.num v) =
        .obj [("kg", round2 v), ("lbs", round2 (round2 v * 2.20462))]) := by
  constructor
  · intro hn
    rw [convertMeasurement_num_length _ _ hn, h]
  · intro hn
    rw [convertMeasurement_num_weight _ _ hn, h]

/-- C1 (witness): the amended theorem at the input 170, whose `{cm, in}`
record is `{170, 66.93}`. -/
theorem C1_roundtrip_amended_witness :
    round2 (170 : ℚ) = 170 ∧
    convertMeasurement "height" (.num 170) = .obj [("cm", 170), ("in", 66.93)] := by
  have h170 : round2 (170 : ℚ) = 170 := by
    rw [round2_eq_down (170 : ℚ) 17000 (by norm_num) (by norm_num)]
    norm_num
  refine ⟨h170, ?_⟩
  rw [(C1_roundtrip_amended "height" 170 h170).1 (by decide), h170]
  rw [round2_eq_up ((170 : ℚ) / 2.54) 6692 (by norm_num) (by norm_num)]
  norm_num

/-- C2: `download_measurements` succeeds iff the remote state is "READY"
and the measurement map is non-empty; the output file is written exactly
on success; a non-"READY" state yields failure with no write; and with
state "READY" and measurements `{height: 170.0}` the written file is
`{height: {cm: 170.0, in: 66.93}}`. -/
theorem C2_download_success_iff (resp : AvatarStatusResponse) :
    ((download_measurements resp).1 = true ↔
      resp.state = some "READY" ∧ resp.mesh_measurements ≠ []) ∧
    ((download_measurements resp).2.isSome ↔ (download_measurements resp).1 = true) ∧
    (resp.state ≠ some "READY" → download_measurements resp = (false, none)) ∧
    download_measurements ⟨some "READY", [("height", .num 170)]⟩ =
      (true, some [("height", .obj [("cm", 170), ("in", 66.93)])]) := by
  refine ⟨?_, ?_, ?_, ?_⟩
  · unfold download_measurements
    split_ifs with h1 h2
    · simp [h1, List.isEmpty_iff.mp h2]
    · simp [h1, List.isEmpty_iff] at h2 ⊢
      exact h2
    · simp [h1]
  · unfold download_measurements
    split_ifs <;> simp
  · intro h
    unfold download_measurements
    rw [if_neg h]
  · unfold download_measurements
    simp only [List.isEmpty_cons, if_pos rfl, if_neg Bool.false_ne_true, List.map]
    rw [convertMeasurement_num_length "height" 170 (by decide)]
    rw [round2_eq_down (170 : ℚ) 17000 (by norm_num) (by norm_num)]
    rw [round2_eq_up ((170 : ℚ) / 2.54) 6692 (by norm_num) (by norm_num)]
    norm_num

/-- C3: in every execution of `upload_avatar`, the rewrite of
`avatar.json` with the new avatar id happens after avatar creation and
before any presigned-URL request or image transfer: the trace splits as
`pre ++ [save] ++ post` where `pre` contains the creation and no
image-upload event. -/
theorem C3_id_persisted_before_upload (selected_subject : String)
    (avatar_data : List (String × JValue)) (image_files : List String)
    (new_avatar_id : String) :
    ∃ pre post,
      upload_avatar selected_subject avatar_data image_files new_avatar_id =
        pre ++ Event.saveAvatarJson (setKey avatar_data "avatar_id" (JValue.str new_avatar_id))
          :: post ∧
      Event.createAvatar ∈ pre ∧
      ∀ e ∈ pre, isImageUploadEvent e = false := by
  refine ⟨[Event.createAvatar],
    upload_images image_files
      ++ [Event.fitRequest (fitPayload selected_subject
            (setKey avatar_data "avatar_id" (JValue.str new_avatar_id)))],
    rfl, by simp, ?_⟩
  intro e he
  simp only [List.mem_singleton] at he
  subst he
  rfl

/-- C4 (counterexample): for a missing gender field the claim asserts the
"neutral" default comes with a non-fatal warning, but the code takes the
default "neutral" before validation, so no warning is printed: the warning
flag is `false`. -/
theorem C4_gender_counterexample : normalizeGender none = ("neutral", false) := by decide

/-- C4 (amended): the loaded gender is always one of {female, male,
neutral}; "Female", "MALE" and " neutral " yield "female", "male" and
"neutral" respectively (the last through the warning fallback, since the
code lowercases but does not strip); any present value whose lowercase
form is not a valid gender is replaced by "neutral" with a warning; a
missing value defaults to "neutral" without a warning. -/
theorem C4_gender_normalization (g : Option String) :
    (normalizeGender g).1 ∈ valid_genders ∧
    normalizeGender (some "Female") = ("female", false) ∧
    normalizeGender (some "MALE") = ("male", false) ∧
    normalizeGender (some " neutral ") = ("neutral", true) ∧
    normalizeGender none = ("neutral", false) ∧
    (∀ s : String, pyLower s ∉ valid_genders → normalizeGender (some s) = ("neutral", true)) ∧
    (∀ s : String, pyLower s ∈ valid_genders → normalizeGender (some s) = (pyLower s, false)) := by
  refine ⟨normalizeGender_fst_mem g, by decide, by decide, by decide, by decide, ?_, ?_⟩
  · intro s hs
    simp [normalizeGender, hs]
  · intro s hs
    simp [normalizeGender, hs]

/-- C5: the scanner returns exactly the names of the directory entries
that are directories, have no leading dot and contain `avatar.json` — as
a list, sorted for Python's string order and a permutation of the
filtered names; no qualifying entry yields the empty list; and the spec's
concrete directory example yields `["alice", "carol"]`. -/
theorem C5_scanner (entries : List DirEntry) :
    List.Sorted strLeRel (get_available_subjects entries) ∧
    List.Perm (get_available_subjects entries)
      ((entries.filter fun e => e.is_dir && !startsWithDot e.name && e.has_avatar_json).map
        DirEntry.name) ∧
    (∀ n, n ∈ get_available_subjects entries ↔
      ∃ e ∈ entries, e.name = n ∧ e.is_dir = true ∧ startsWithDot e.name = false ∧
        e.has_avatar_json = true) ∧
    ((∀ e ∈ entries, (e.is_dir && !startsWithDot e.name && e.has_avatar_json) = false) →
      get_available_subjects entries = []) ∧
    get_available_subjects
      [⟨".hidden", true, false⟩, ⟨"alice", true, true⟩, ⟨"bob-no-json", true, false⟩,
       ⟨"carol", true, true⟩] = ["alice", "carol"] := by
  refine ⟨List.sorted_insertionSort strLeRel _, List.perm_insertionSort strLeRel _, ?_, ?_, ?_⟩
  · intro n
    simp only [get_available_subjects, List.mem_insertionSort, List.mem_map, List.mem_filter,
      Bool.and_eq_true, Bool.not_eq_true']
    aesop
  · intro h
    have : entries.filter (fun e => e.is_dir && !startsWithDot e.name && e.has_avatar_json) = [] := by
      rw [List.filter_eq_nil_iff]
      intro e he
      simp [h e he]
    simp [get_available_subjects, this, List.insertionSort]
  · decide

/-- C6: image collection truncates the concatenated jpg-then-jpeg-then-png
listing to its first 4 files; with 5 or more images exactly 4 are
selected; and no file past the 4th ever appears in a presigned-URL
request or image transfer of the upload trace. -/
theorem C6_image_limit (jpg_files jpeg_files png_files : List String)
    (hnodup : (jpg_files ++ jpeg_files ++ png_files).Nodup)
    (hfive : 5 ≤ (jpg_files ++ jpeg_files ++ png_files).length) :
    collectImages jpg_files jpeg_files png_files =
      (jpg_files ++ jpeg_files ++ png_files).take 4 ∧
    (collectImages jpg_files jpeg_files png_files).length = 4 ∧
    ∀ f ∈ (jpg_files ++ jpeg_files ++ png_files).drop 4,
      Event.presignRequest f ∉ upload_images (collectImages jpg_files jpeg_files png_files) ∧
      Event.putImage f ∉ upload_images (collectImages jpg_files jpeg_files png_files) := by
  refine ⟨rfl, ?_, ?_⟩
  · rw [collectImages, List.length_take]
    omega
  · intro f hf
    have hnotin : f ∉ (jpg_files ++ jpeg_files ++ png_files).take 4 := fun hin =>
      List.disjoint_take_drop hnodup le_rfl hin hf
    rw [collectImages]
    rw [presign_mem_upload_images, putImage_mem_upload_images]
    exact ⟨hnotin, hnotin⟩

/-- C6 (witness): with five images present, the four selected are the jpg
then jpeg files and the png file is never referenced. -/
theorem C6_image_limit_witness :
    collectImages ["front.jpg", "back.jpg"] ["left.jpeg", "right.jpeg"] ["extra.png"] =
      ["front.jpg", "back.jpg", "left.jpeg", "right.jpeg"] ∧
    Event.presignRequest "extra.png" ∉
      upload_images
        (collectImages ["front.jpg", "back.jpg"] ["left.jpeg", "right.jpeg"] ["extra.png"]) := by
  have h := C6_image_limit ["front.jpg", "back.jpg"] ["left.jpeg", "right.jpeg"] ["extra.png"]
    (by decide) (by decide)
  exact ⟨by decide, (h.2.2 "extra.png" (by decide)).1⟩

/-- C7: the fitting request body has exactly the keys `avatarname` (the
subject name), `gender` (the stored, normalised gender), `imageMode`
(fixed "AFI"), plus `height` iff present in the metadata and `weight` iff
present; no other metadata field such as `avatar_id` appears. -/
theorem C7_fit_payload (subject_name : String) (avatar_data : List (String × JValue)) :
    (fitPayload subject_name avatar_data).map Prod.fst =
      ["avatarname", "gender", "imageMode"]
        ++ (if (lookupKey avatar_data "height").isSome then ["height"] else [])
        ++ (if (lookupKey avatar_data "weight").isSome then ["weight"] else []) ∧
    lookupKey (fitPayload subject_name avatar_data) "avatarname" =
      some (JValue.str subject_name) ∧
    lookupKey (fitPayload subject_name avatar_data) "gender" =
      some ((lookupKey avatar_data "gender").getD .null) ∧
    lookupKey (fitPayload subject_name avatar_data) "imageMode" = some (JValue.str "AFI") ∧
    "avatar_id" ∉ (fitPayload subject_name avatar_data).map Prod.fst := by
  cases hh : lookupKey avatar_data "height" <;> cases hw : lookupKey avatar_data "weight" <;>
    (unfold fitPayload
     rw [hh, hw]
     refine ⟨?_, ?_, ?_, ?_, ?_⟩ <;> simp +decide [lookupKey, List.find?])

/-- C8: with an empty image list the upload workflow still runs to
completion: the avatar is created, the id is persisted, no presigned-URL
request or image transfer occurs, and the fitting request is still
submitted. -/
theorem C8_no_images (selected_subject : String) (avatar_data : List (String × JValue))
    (new_avatar_id : String) :
    collectImages [] [] [] = [] ∧
    upload_avatar selected_subject avatar_data [] new_avatar_id =
      [Event.createAvatar,
       Event.saveAvatarJson (setKey avatar_data "avatar_id" (JValue.str new_avatar_id)),
       Event.fitRequest (fitPayload selected_subject
         (setKey avatar_data "avatar_id" (JValue.str new_avatar_id)))] ∧
    (∀ e ∈ upload_avatar selected_subject avatar_data [] new_avatar_id,
      isImageUploadEvent e = false) ∧
    (∃ payload, Event.fitRequest payload ∈
      upload_avatar selected_subject avatar_data [] new_avatar_id) := by
  have htrace : upload_avatar selected_subject avatar_data [] new_avatar_id =
      [Event.createAvatar,
       Event.saveAvatarJson (setKey avatar_data "avatar_id" (JValue.str new_avatar_id)),
       Event.fitRequest (fitPayload selected_subject
         (setKey avatar_data "avatar_id" (JValue.str new_avatar_id)))] := rfl
  refine ⟨rfl, htrace, ?_, ?_⟩
  · intro e he
    rw [htrace] at he
    simp only [List.mem_cons, List.not_mem_nil, or_false] at he
    rcases he with rfl | rfl | rfl <;> rfl
  · refine ⟨fitPayload selected_subject (setKey avatar_data "avatar_id" (JValue.str new_avatar_id)),
      ?_⟩
    rw [htrace]
    simp

/-- C9: boolean measurement values pass the numeric test (Python's `bool`
is a subclass of `int`) and are converted into a two-unit record — a
non-weight entry with value `true` yields `{cm: 1, in: 0.39}` — while
strings and null are passed through unchanged. -/
theorem C9_bool_measurements (measurement_name : String) (s : String) :
    (∀ b : Bool, ∃ fields, convertMeasurement measurement_name (.bool b) = OutValue.obj fields) ∧
    convertMeasurement "stature" (.bool true) = .obj [("cm", 1), ("in", 0.39)] ∧
    convertMeasurement measurement_name (.str s) = .raw (.str s) ∧
    convertMeasurement measurement_name .null = .raw .null := by
  refine ⟨?_, ?_, rfl, rfl⟩
  · intro b
    by_cases h : pyLower measurement_name = "weight"
    · exact ⟨[("kg", round2 (numValue (JValue.bool b))),
              ("lbs", round2 (numValue (JValue.bool b) * 2.20462))],
        by simp [convertMeasurement, isNumeric, h]⟩
    · exact ⟨[("cm", round2 (numValue (JValue.bool b))),
              ("in", round2 (numValue (JValue.bool b) / 2.54))],
        by simp [convertMeasurement, isNumeric, h]⟩
  · have h1 : round2 (1 : ℚ) = 1 := by
      rw [round2_eq_down (1 : ℚ) 100 (by norm_num) (by norm_num)]
      norm_num
    have h2 : round2 ((1 : ℚ) / 2.54) = 0.39 := by
      rw [round2_eq_down ((1 : ℚ) / 2.54) 39 (by norm_num) (by norm_num)]
      norm_num
    have hconv : convertMeasurement "stature" (.bool true) =
        .obj [("cm", round2 1), ("in", round2 (1 / 2.54))] := by
      simp +decide [convertMeasurement, isNumeric, numValue]
    rw [hconv, h1, h2]

/-- C10: the upload workflow rewrites `avatar.json` with the in-memory
(normalised) metadata plus the new avatar id: the written object carries
the new `avatar_id` (overwriting any previous one), its `gender` is the
normalised lowercase one, and every field other than `gender` and
`avatar_id` keeps exactly the value it had in the pre-run file. -/
theorem C10_avatar_json_rewrite (selected_subject : String)
    (raw loaded : List (String × JValue)) (image_files : List String) (new_avatar_id : String)
    (hload : load_avatar_data raw = some loaded) :
    Event.saveAvatarJson (setKey loaded "avatar_id" (JValue.str new_avatar_id)) ∈
      upload_avatar selected_subject loaded image_files new_avatar_id ∧
    lookupKey (setKey loaded "avatar_id" (JValue.str new_avatar_id)) "avatar_id" =
      some (JValue.str new_avatar_id) ∧
    (∃ g, lookupKey (setKey loaded "avatar_id" (JValue.str new_avatar_id)) "gender" =
        some (JValue.str g) ∧ g ∈ valid_genders) ∧
    (∀ k, k ≠ "gender" → k ≠ "avatar_id" →
      lookupKey (setKey loaded "avatar_id" (JValue.str new_avatar_id)) k = lookupKey raw k) := by
  have hcases : (∃ s, lookupKey raw "gender" = some (JValue.str s) ∧
      loaded = setKey raw "gender" (JValue.str (normalizeGender (some s)).1)) ∨
      (lookupKey raw "gender" = none ∧
      loaded = setKey raw "gender" (JValue.str (normalizeGender none).1)) := by
    unfold load_avatar_data at hload
    cases hg : lookupKey raw "gender" with
    | none =>
      rw [hg] at hload
      simp only [Option.some.injEq] at hload
      exact Or.inr ⟨rfl, hload.symm⟩
    | some jv =>
      cases jv with
      | str s =>
        rw [hg] at hload
        simp only [Option.some.injEq] at hload
        exact Or.inl ⟨s, rfl, hload.symm⟩
      | num q => rw [hg] at hload; cases hload
      | bool b => rw [hg] at hload; cases hload
      | null => rw [hg] at hload; cases hload
  refine ⟨by simp [upload_avatar], lookupKey_setKey_same _ _ _, ?_, ?_⟩
  · obtain ⟨s, hg, rfl⟩ | ⟨hg, rfl⟩ := hcases
    · refine ⟨(normalizeGender (some s)).1, ?_, normalizeGender_fst_mem _⟩
      rw [lookupKey_setKey_other _ _ _ _ (by decide), lookupKey_setKey_same]
    · refine ⟨(normalizeGender none).1, ?_, normalizeGender_fst_mem _⟩
      rw [lookupKey_setKey_other _ _ _ _ (by decide), lookupKey_setKey_same]
  · intro k hk1 hk2
    obtain ⟨s, hg, rfl⟩ | ⟨hg, rfl⟩ := hcases <;>
      rw [lookupKey_setKey_other _ _ _ _ hk2, lookupKey_setKey_other _ _ _ _ hk1]

/-- C10 (witness): re-uploading a subject whose stored gender was "Female"
and whose stored avatar_id was "old-id" writes "female" (normalised),
replaces the id by "new-id", and keeps the height field's value. -/
theorem C10_avatar_json_rewrite_witness :
    lookupKey (setKey [("gender", JValue.str "female"), ("avatar_id", JValue.str "old-id"),
        ("height", JValue.num 170)] "avatar_id" (JValue.str "new-id")) "avatar_id" =
      some (JValue.str "new-id") ∧
    lookupKey (setKey [("gender", JValue.str "female"), ("avatar_id", JValue.str "old-id"),
        ("height", JValue.num 170)] "avatar_id" (JValue.str "new-id")) "height" =
      lookupKey [("gender", JValue.str "Female"), ("avatar_id", JValue.str "old-id"),
        ("height", JValue.num 170)] "height" := by
  have h := C10_avatar_json_rewrite "alice"
    [("gender", JValue.str "Female"), ("avatar_id", JValue.str "old-id"),
     ("height", JValue.num 170)]
    [("gender", JValue.str "female"), ("avatar_id", JValue.str "old-id"),
     ("height", JValue.num 170)]
    [] "new-id" (by decide)
  exact ⟨h.2.1, h.2.2.2 "height" (by decide) (by decide)⟩

end Meshcapade
